import Mathlib

/-!
Verification of the cpi-test program (instruction codec, dispatch processor,
error mapping and off-chain builder) against its natural-language
specification. The Rust sources are embedded shallowly: byte buffers are
lists of naturals, machine integers are naturals reduced modulo powers of
two where the machine width matters, fallible functions return Except, and
the single external effect (the delegated system-transfer invocation) is
embedded as a capability parameter together with an explicit trace of the
delegated calls the processor issues.
-/

namespace SplCpi

/-- Errors returned by the cpi-test program, from src/cpi-test/program/src/error.rs.
The Rust enum has the single variant InvalidInstruction. -/
inductive CpiError where
  | InvalidInstruction
deriving DecidableEq

/-- Host-visible program errors, embedding solana_sdk program_error ProgramError:
a custom numeric code plus the builtin runtime error kinds.  The processor's
account iterator fails with NotEnoughAccountKeys; the delegated capability may
return any value of this type. -/
inductive ProgramError where
  | Custom (code : Nat)
  | InvalidArgument
  | InvalidInstructionData
  | InvalidAccountData
  | AccountDataTooSmall
  | InsufficientFunds
  | IncorrectProgramId
  | MissingRequiredSignature
  | AccountAlreadyInitialized
  | UninitializedAccount
  | NotEnoughAccountKeys
  | AccountBorrowFailed
  | MaxSeedLengthExceeded
  | InvalidSeeds
deriving DecidableEq

/-- Rust discriminant of a CpiError value (the `e as u32` cast): the first and
only variant InvalidInstruction has discriminant 0. -/
def CpiError.toU32 : CpiError → Nat
  | CpiError.InvalidInstruction => 0

/-- Embedding of `impl From<CpiError> for ProgramError`, which produces
`ProgramError::Custom(e as u32)` (src/cpi-test/program/src/error.rs). -/
def CpiError.toProgramError (e : CpiError) : ProgramError :=
  ProgramError.Custom e.toU32

/-- Little-endian byte decomposition of a 64-bit unsigned integer, embedding
`u64::to_le_bytes`: byte i is `n / 256 ^ i % 256`. -/
def u64ToLeBytes (n : Nat) : List Nat :=
  [n % 256, n / 256 % 256, n / 256 ^ 2 % 256, n / 256 ^ 3 % 256,
   n / 256 ^ 4 % 256, n / 256 ^ 5 % 256, n / 256 ^ 6 % 256, n / 256 ^ 7 % 256]

/-- Little-endian reconstruction of an unsigned integer from a byte list,
embedding `u64::from_le_bytes` on an 8-byte slice. -/
def u64FromLeBytes (bs : List Nat) : Nat :=
  bs.foldr (fun b acc => b + 256 * acc) 0

/-- Instructions supported by the program
(src/cpi-test/program/src/instruction.rs): the single variant
InvokedTransfer carries the amount to transfer, in lamports. -/
inductive CpiInstruction where
  | InvokedTransfer (amount : Nat)
deriving DecidableEq

/-- Embedding of `CpiInstruction::unpack`: split off the first byte as the tag
(failing with InvalidInstruction on an empty buffer); for tag 0 take the next
8 bytes as a little-endian u64 (failing with InvalidInstruction when fewer
than 8 remain); any other tag fails with InvalidInstruction. -/
def CpiInstruction.unpack (input : List Nat) : Except ProgramError CpiInstruction :=
  match input with
  | [] => Except.error (CpiError.toProgramError CpiError.InvalidInstruction)
  | tag :: rest =>
    match tag with
    | 0 =>
      if 8 ≤ rest.length then
        Except.ok (CpiInstruction.InvokedTransfer (u64FromLeBytes (rest.take 8)))
      else
        Except.error (CpiError.toProgramError CpiError.InvalidInstruction)
    | _ + 1 => Except.error (CpiError.toProgramError CpiError.InvalidInstruction)

/-- Embedding of `CpiInstruction::pack`: push the tag byte 0, then extend with
the little-endian bytes of the amount. -/
def CpiInstruction.pack : CpiInstruction → List Nat
  | CpiInstruction.InvokedTransfer amount => 0 :: u64ToLeBytes amount

/-- Public keys are opaque 32-byte identities; the embedding keeps only their
identity as a natural number. -/
abbrev Pubkey := Nat

/-- The system program's id (`system_program::id()`), the all-zero pubkey. -/
def systemProgramId : Pubkey := 0

/-- Embedding of solana_sdk AccountMeta: a pubkey plus signer and writability
flags. -/
structure AccountMeta where
  pubkey : Pubkey
  is_signer : Bool
  is_writable : Bool
deriving DecidableEq

/-- Embedding of `AccountMeta::new`: writable account meta. -/
def AccountMeta.new (pubkey : Pubkey) (is_signer : Bool) : AccountMeta :=
  { pubkey := pubkey, is_signer := is_signer, is_writable := true }

/-- Embedding of `AccountMeta::new_readonly`: non-writable account meta. -/
def AccountMeta.new_readonly (pubkey : Pubkey) (is_signer : Bool) : AccountMeta :=
  { pubkey := pubkey, is_signer := is_signer, is_writable := false }

/-- Embedding of solana_sdk Instruction: target program id, account metas and
the instruction data buffer. -/
structure Instruction where
  program_id : Pubkey
  accounts : List AccountMeta
  data : List Nat
deriving DecidableEq

/-- Embedding of the `invoked_transfer` builder
(src/cpi-test/program/src/instruction.rs): packs an InvokedTransfer command
and assembles the three account metas (writable signer source, writable
destination, read-only system program). -/
def invoked_transfer (program_id : Pubkey) (source_pubkey : Pubkey)
    (destination_pubkey : Pubkey) (amount : Nat) : Except ProgramError Instruction :=
  let data := (CpiInstruction.InvokedTransfer amount).pack
  let accounts := [AccountMeta.new source_pubkey true,
                   AccountMeta.new destination_pubkey false,
                   AccountMeta.new_readonly systemProgramId false]
  Except.ok { program_id := program_id, accounts := accounts, data := data }

/-- Embedding of an on-chain account handle (solana_sdk AccountInfo): the
processor reads only the key, but the handle also carries the flags and
balance visible to the delegated callee. -/
structure AccountInfo where
  key : Pubkey
  is_signer : Bool
  is_writable : Bool
  lamports : Nat
deriving DecidableEq

/-- The parameter record of a `system_instruction::transfer` request: source,
destination and lamport amount.  The sdk builder is external to this
repository, so it is embedded as the record of its parameters. -/
structure SystemTransfer where
  from_pubkey : Pubkey
  to_pubkey : Pubkey
  lamports : Nat
deriving DecidableEq

/-- Embedding of `system_instruction::transfer`. -/
def system_instruction.transfer (from_pubkey : Pubkey) (to_pubkey : Pubkey)
    (lamports : Nat) : SystemTransfer :=
  { from_pubkey := from_pubkey, to_pubkey := to_pubkey, lamports := lamports }

/-- One delegated cross-program invocation issued by the processor: the
transfer request together with the account handles passed along. -/
structure DelegatedCall where
  instr : SystemTransfer
  accounts : List AccountInfo
deriving DecidableEq

/-- The delegated system-transfer capability: an external collaborator that,
given the transfer request and the forwarded account handles, either succeeds
or fails with a program error.  It is a parameter of the processor embedding
so dispatch can be verified against an arbitrary capability. -/
abbrev Capability := SystemTransfer → List AccountInfo → Except ProgramError Unit

/-- Embedding of `solana_sdk::program::invoke`: performs one delegated call,
recorded in the trace, and returns the capability's result. -/
def invoke (cap : Capability) (instr : SystemTransfer) (accs : List AccountInfo) :
    Except ProgramError Unit × List DelegatedCall :=
  (cap instr accs, [{ instr := instr, accounts := accs }])

/-- Embedding of `next_account_info`: returns the next account handle and the
remaining iterator, or NotEnoughAccountKeys when the iterator is exhausted. -/
def next_account_info (iter : List AccountInfo) :
    Except ProgramError (AccountInfo × List AccountInfo) :=
  match iter with
  | [] => Except.error ProgramError.NotEnoughAccountKeys
  | a :: rest => Except.ok (a, rest)

/-- Embedding of `Processor::process_invoked_transfer`
(src/cpi-test/program/src/processor.rs): pull three account handles in order
(source, destination, system program), then invoke the delegated transfer
once with (source key, destination key, amount) and the three handles,
propagating any error.  The second component is the trace of delegated calls
issued. -/
def Processor.process_invoked_transfer (cap : Capability) (accounts : List AccountInfo)
    (amount : Nat) : Except ProgramError Unit × List DelegatedCall :=
  match next_account_info accounts with
  | Except.error e => (Except.error e, [])
  | Except.ok (source_account_info, it1) =>
    match next_account_info it1 with
    | Except.error e => (Except.error e, [])
    | Except.ok (dest_account_info, it2) =>
      match next_account_info it2 with
      | Except.error e => (Except.error e, [])
      | Except.ok (system_program_account_info, _) =>
        match invoke cap
            (system_instruction.transfer source_account_info.key dest_account_info.key amount)
            [source_account_info, dest_account_info, system_program_account_info] with
        | (Except.error e, calls) => (Except.error e, calls)
        | (Except.ok _, calls) => (Except.ok (), calls)

/-- Embedding of `Processor::process`: decode the instruction buffer first,
propagating any decode error, then dispatch on the decoded variant. -/
def Processor.process (cap : Capability) (_program_id : Pubkey)
    (accounts : List AccountInfo) (input : List Nat) :
    Except ProgramError Unit × List DelegatedCall :=
  match CpiInstruction.unpack input with
  | Except.error e => (Except.error e, [])
  | Except.ok (CpiInstruction.InvokedTransfer amount) =>
    Processor.process_invoked_transfer cap accounts amount

/-- Reconstructing a u64 from its little-endian byte decomposition recovers
the value modulo 2 ^ 64. -/
theorem u64FromLeBytes_u64ToLeBytes (n : Nat) :
    u64FromLeBytes (u64ToLeBytes n) = n % 2 ^ 64 := by
  simp only [u64ToLeBytes, u64FromLeBytes, List.foldr]
  norm_num
  omega

/-- C1: for every u64 amount a, unpacking the packed encoding of
InvokedTransfer a succeeds and returns InvokedTransfer a, i.e. the codec
round-trips on every Command. -/
theorem unpack_pack_round_trip (a : Nat) (h : a < 2 ^ 64) :
    CpiInstruction.unpack (CpiInstruction.pack (CpiInstruction.InvokedTransfer a)) =
      Except.ok (CpiInstruction.InvokedTransfer a) := by
  have hlen : (u64ToLeBytes a).length = 8 := by simp [u64ToLeBytes]
  simp [CpiInstruction.pack, CpiInstruction.unpack, hlen,
    List.take_of_length_le (le_of_eq hlen), u64FromLeBytes_u64ToLeBytes,
    Nat.mod_eq_of_lt h]
  omega

/-- Witness for C1 at the concrete amount 123456789. -/
theorem unpack_pack_round_trip_witness :
    CpiInstruction.unpack (CpiInstruction.pack (CpiInstruction.InvokedTransfer 123456789)) =
      Except.ok (CpiInstruction.InvokedTransfer 123456789) :=
  unpack_pack_round_trip 123456789 (by norm_num)

/-- C2: with at least three account handles, dispatching InvokedTransfer
invokes the delegated transfer capability exactly once, parameterized by the
keys of the first two accounts and the amount, passing the first three
handles; the returned status is exactly the capability's status and any
trailing accounts are ignored. -/
theorem process_invoked_transfer_three_accounts (cap : Capability)
    (a0 a1 a2 : AccountInfo) (rest : List AccountInfo) (amount : Nat) :
    Processor.process_invoked_transfer cap (a0 :: a1 :: a2 :: rest) amount =
      (cap (system_instruction.transfer a0.key a1.key amount) [a0, a1, a2],
       [{ instr := system_instruction.transfer a0.key a1.key amount,
          accounts := [a0, a1, a2] }]) := by
  cases hcap : cap (system_instruction.transfer a0.key a1.key amount) [a0, a1, a2] with
  | ok u => cases u; simp [Processor.process_invoked_transfer, next_account_info, invoke, hcap]
  | error e => simp [Processor.process_invoked_transfer, next_account_info, invoke, hcap]

/-- C3: unpack is total with a typed result: it fails with InvalidInstruction
exactly when the buffer is empty, the first byte is nonzero, or the first
byte is zero with fewer than 8 bytes following; on every other input it
succeeds with the little-endian u64 of bytes 1..9; and every error it ever
returns is the InvalidInstruction error. -/
theorem unpack_characterization (input : List Nat) :
    (CpiInstruction.unpack input =
        Except.error (CpiError.toProgramError CpiError.InvalidInstruction) ↔
      input = [] ∨ (∃ t rest, input = t :: rest ∧ t ≠ 0) ∨
        (∃ rest, input = 0 :: rest ∧ rest.length < 8)) ∧
    (∀ rest, input = 0 :: rest → 8 ≤ rest.length →
      CpiInstruction.unpack input =
        Except.ok (CpiInstruction.InvokedTransfer (u64FromLeBytes (rest.take 8)))) ∧
    (∀ e, CpiInstruction.unpack input = Except.error e →
      e = CpiError.toProgramError CpiError.InvalidInstruction) := by
  rcases input with _ | ⟨t, rest⟩
  · simp [CpiInstruction.unpack]
  · rcases t with _ | t
    · by_cases hlen : 8 ≤ rest.length
      · simp [CpiInstruction.unpack, hlen]
      · simp [CpiInstruction.unpack, hlen]
        omega
    · simp [CpiInstruction.unpack]

/-- Witness for C3 on the 9-byte buffer encoding amount 1. -/
theorem unpack_characterization_witness :
    CpiInstruction.unpack [0, 1, 0, 0, 0, 0, 0, 0, 0] =
      Except.ok (CpiInstruction.InvokedTransfer 1) := by
  have h := (unpack_characterization [0, 1, 0, 0, 0, 0, 0, 0, 0]).2.1
    [1, 0, 0, 0, 0, 0, 0, 0] rfl (by norm_num)
  simpa [u64FromLeBytes] using h

/-- C4: with fewer than three account handles, dispatching InvokedTransfer
fails with the missing-account error NotEnoughAccountKeys, which is distinct
from the decode-level InvalidInstruction error, and the delegated capability
is never invoked (the trace is empty). -/
theorem process_invoked_transfer_missing_account (cap : Capability)
    (accounts : List AccountInfo) (amount : Nat) (h : accounts.length < 3) :
    Processor.process_invoked_transfer cap accounts amount =
        (Except.error ProgramError.NotEnoughAccountKeys, []) ∧
      ProgramError.NotEnoughAccountKeys ≠
        CpiError.toProgramError CpiError.InvalidInstruction := by
  rcases accounts with _ | ⟨a0, _ | ⟨a1, _ | ⟨a2, rest⟩⟩⟩
  · exact ⟨by simp [Processor.process_invoked_transfer, next_account_info], by
      simp [CpiError.toProgramError, CpiError.toU32]⟩
  · exact ⟨by simp [Processor.process_invoked_transfer, next_account_info], by
      simp [CpiError.toProgramError, CpiError.toU32]⟩
  · exact ⟨by simp [Processor.process_invoked_transfer, next_account_info], by
      simp [CpiError.toProgramError, CpiError.toU32]⟩
  · simp at h
    omega

/-- Witness for C4 on a two-account list. -/
theorem process_invoked_transfer_missing_account_witness :
    Processor.process_invoked_transfer (fun _ _ => Except.ok ())
        [{ key := 1, is_signer := true, is_writable := true, lamports := 10 },
         { key := 2, is_signer := false, is_writable := true, lamports := 0 }] 5 =
        (Except.error ProgramError.NotEnoughAccountKeys, []) ∧
      ProgramError.NotEnoughAccountKeys ≠
        CpiError.toProgramError CpiError.InvalidInstruction :=
  process_invoked_transfer_missing_account (fun _ _ => Except.ok ())
    [{ key := 1, is_signer := true, is_writable := true, lamports := 10 },
     { key := 2, is_signer := false, is_writable := true, lamports := 0 }] 5
    (by norm_num)

/-- C5: the processor propagates the delegated capability's result verbatim:
when the capability fails with e the processor returns exactly e, and when it
succeeds the processor returns success with no payload; in both cases the
trace shows the single delegated call and nothing else. -/
theorem process_invoked_transfer_propagates (cap : Capability)
    (a0 a1 a2 : AccountInfo) (rest : List AccountInfo) (amount : Nat) :
    (∀ e, cap (system_instruction.transfer a0.key a1.key amount) [a0, a1, a2] =
        Except.error e →
      Processor.process_invoked_transfer cap (a0 :: a1 :: a2 :: rest) amount =
        (Except.error e,
         [{ instr := system_instruction.transfer a0.key a1.key amount,
            accounts := [a0, a1, a2] }])) ∧
    (cap (system_instruction.transfer a0.key a1.key amount) [a0, a1, a2] =
        Except.ok () →
      Processor.process_invoked_transfer cap (a0 :: a1 :: a2 :: rest) amount =
        (Except.ok (),
         [{ instr := system_instruction.transfer a0.key a1.key amount,
            accounts := [a0, a1, a2] }])) := by
  constructor
  · intro e hcap
    simp [Processor.process_invoked_transfer, next_account_info, invoke, hcap]
  · intro hcap
    simp [Processor.process_invoked_transfer, next_account_info, invoke, hcap]

/-- Witness for C5 with a capability that fails with the custom error 42. -/
theorem process_invoked_transfer_propagates_witness :
    Processor.process_invoked_transfer (fun _ _ => Except.error (ProgramError.Custom 42))
        [{ key := 1, is_signer := true, is_writable := true, lamports := 10 },
         { key := 2, is_signer := false, is_writable := true, lamports := 0 },
         { key := 0, is_signer := false, is_writable := false, lamports := 1 }] 5 =
      (Except.error (ProgramError.Custom 42),
       [{ instr := system_instruction.transfer 1 2 5,
          accounts :=
            [{ key := 1, is_signer := true, is_writable := true, lamports := 10 },
             { key := 2, is_signer := false, is_writable := true, lamports := 0 },
             { key := 0, is_signer := false, is_writable := false, lamports := 1 }] }]) :=
  (process_invoked_transfer_propagates (fun _ _ => Except.error (ProgramError.Custom 42))
      { key := 1, is_signer := true, is_writable := true, lamports := 10 }
      { key := 2, is_signer := false, is_writable := true, lamports := 0 }
      { key := 0, is_signer := false, is_writable := false, lamports := 1 } [] 5).1
    (ProgramError.Custom 42) rfl

/-- C6: packing InvokedTransfer a yields exactly 9 bytes, the tag byte 0
followed by the 8 little-endian bytes of a with no padding and no leading
length marker; at a = 1000000 the output is the concrete buffer
0x00 0x40 0x42 0x0F 0x00 0x00 0x00 0x00 0x00. -/
theorem pack_invoked_transfer_format (a : Nat) :
    CpiInstruction.pack (CpiInstruction.InvokedTransfer a) =
        [0, a % 256, a / 256 % 256, a / 256 ^ 2 % 256, a / 256 ^ 3 % 256,
         a / 256 ^ 4 % 256, a / 256 ^ 5 % 256, a / 256 ^ 6 % 256,
         a / 256 ^ 7 % 256] ∧
      (CpiInstruction.pack (CpiInstruction.InvokedTransfer a)).length = 9 ∧
      CpiInstruction.pack (CpiInstruction.InvokedTransfer 1000000) =
        [0x00, 0x40, 0x42, 0x0F, 0x00, 0x00, 0x00, 0x00, 0x00] := by
  refine ⟨rfl, by simp [CpiInstruction.pack, u64ToLeBytes], by norm_num [CpiInstruction.pack, u64ToLeBytes]⟩

/-- C7: the decoder is tolerant of trailing bytes: whenever the tag byte 0 is
followed by an 8-byte body and then any extra bytes, unpack succeeds using
only the body, however many trailing bytes follow. -/
theorem unpack_tolerant_trailing (body extra : List Nat) (h : body.length = 8) :
    CpiInstruction.unpack (0 :: (body ++ extra)) =
      Except.ok (CpiInstruction.InvokedTransfer (u64FromLeBytes body)) := by
  have hlen : 8 ≤ (body ++ extra).length := by simp [h]
  have htake : (body ++ extra).take 8 = body := by
    simp [List.take_append_eq_append_take, h, List.take_of_length_le (le_of_eq h)]
  simp [CpiInstruction.unpack, hlen, htake]
  omega

/-- Witness for C7 with three trailing bytes. -/
theorem unpack_tolerant_trailing_witness :
    CpiInstruction.unpack (0 :: ([2, 0, 0, 0, 0, 0, 0, 0] ++ [9, 9, 9])) =
      Except.ok (CpiInstruction.InvokedTransfer 2) := by
  have h := unpack_tolerant_trailing [2, 0, 0, 0, 0, 0, 0, 0] [9, 9, 9] rfl
  simpa [u64FromLeBytes] using h

/-- C8: the dispatch entry point decodes first: on every input buffer on which
unpack fails, process returns that decode error for every capability, program
id and account list, and the trace is empty, so no account handle is read and
no delegated invocation is performed. -/
theorem process_decode_error_short_circuits (input : List Nat) (e : ProgramError)
    (h : CpiInstruction.unpack input = Except.error e) :
    ∀ (cap : Capability) (pid : Pubkey) (accounts : List AccountInfo),
      Processor.process cap pid accounts input = (Except.error e, []) := by
  intro cap pid accounts
  simp [Processor.process, h]

/-- Witness for C8 on the unrecognized tag 7, with an account list present. -/
theorem process_decode_error_short_circuits_witness :
    Processor.process (fun _ _ => Except.ok ()) 3
        [{ key := 1, is_signer := true, is_writable := true, lamports := 10 }]
        [7, 1, 2, 3, 4, 5, 6, 7, 8] =
      (Except.error (ProgramError.Custom 0), []) :=
  process_decode_error_short_circuits [7, 1, 2, 3, 4, 5, 6, 7, 8]
    (ProgramError.Custom 0) rfl (fun _ _ => Except.ok ()) 3
    [{ key := 1, is_signer := true, is_writable := true, lamports := 10 }]

/-- C9: the off-chain builder invoked_transfer succeeds for every program id,
source, destination and amount, with data equal to the packed InvokedTransfer
command and exactly three account metas in order: the source writable and
signer, the destination writable and not a signer, and the system program id
read-only. -/
theorem invoked_transfer_builds (pid s d : Pubkey) (a : Nat) :
    ∃ ix, invoked_transfer pid s d a = Except.ok ix ∧
      ix.program_id = pid ∧
      ix.data = CpiInstruction.pack (CpiInstruction.InvokedTransfer a) ∧
      ix.accounts.length = 3 ∧
      ix.accounts =
        [{ pubkey := s, is_signer := true, is_writable := true },
         { pubkey := d, is_signer := false, is_writable := true },
         { pubkey := systemProgramId, is_signer := false, is_writable := false }] := by
  refine ⟨_, rfl, rfl, rfl, rfl, ?_⟩
  simp [AccountMeta.new, AccountMeta.new_readonly]

/-- C10: the numeric error-code mapping is fixed: converting the decode error
InvalidInstruction (and hence every CpiError value) to a host-visible program
error always yields the custom error code 0. -/
theorem cpi_error_code_fixed :
    ∀ e : CpiError, CpiError.toProgramError e = ProgramError.Custom 0 := by
  intro e
  cases e
  rfl

end SplCpi
